import Mathlib

/-!
Verification of the statistics core of `soukan_app.py` (correlation dashboard).

The dashboard's computation layer consists of
* `calculate_partial_correlation` (lines 18-36 of the source): first-order
  partial correlation with joint missing-value deletion, a `len < 3` guard,
  a zero-denominator guard, and a catch-all `except` returning `(nan, nan)`;
* the Pearson correlation matrix `df_numeric.corr()` (line 98), i.e. pandas
  `DataFrame.corr` with pairwise deletion;
* a single-predictor OLS fit (lines 157-166) and the point prediction
  `slope * user_x + intercept` (line 231).

Missing values and NaN results are both modelled as `none : Option ℝ`,
matching the float NaN that pandas uses for both.  Columns are lists of
`Option ℝ`; a dataset is an association list of named columns.
-/

namespace Soukan

/-- A dataset: named columns of floats, `none` marking a missing entry. -/
abbrev Dataset := List (String × List (Option ℝ))

/-- Column lookup by name, as in `df[name]` (first column with that label). -/
def findCol (df : Dataset) (name : String) : Option (List (Option ℝ)) :=
  (df.find? fun c => c.1 == name).map Prod.snd

/-- Values of a named column, empty when absent. -/
def colVals (df : Dataset) (c : String) : List (Option ℝ) := (findCol df c).getD []

/-- Arithmetic mean of a list of reals (`0` on the empty list, as `sum/0 = 0`). -/
noncomputable def mean (l : List ℝ) : ℝ := l.sum / l.length

/-- Centered sum of squares `Σ (v - mean)²` of a list. -/
noncomputable def sqDev (l : List ℝ) : ℝ :=
  (l.map fun v => (v - mean l) * (v - mean l)).sum

/-- Centered cross sum `Σ (x - mean xs)(y - mean ys)` of two aligned lists. -/
noncomputable def crossDev (xs ys : List ℝ) : ℝ :=
  (List.zipWith (fun a b => (a - mean xs) * (b - mean ys)) xs ys).sum

/-- Pearson correlation of a list of paired observations, as computed by
pandas `Series.corr` / `DataFrame.corr`: `Σ(x-x̄)(y-ȳ) / sqrt(Σ(x-x̄)² Σ(y-ȳ)²)`,
NaN (`none`) when either centered sum of squares is zero (constant or
too-short input), which is the float division `0/0 = nan` of numpy. -/
noncomputable def pearson (pts : List (ℝ × ℝ)) : Option ℝ :=
  let xs := pts.map Prod.fst
  let ys := pts.map Prod.snd
  if sqDev xs = 0 ∨ sqDev ys = 0 then none
  else some (crossDev xs ys / Real.sqrt (sqDev xs * sqDev ys))

/-- Rows where both columns are non-missing, paired: the pairwise deletion
performed by pandas before correlating two columns. -/
def pairedRowsV (c1 c2 : List (Option ℝ)) : List (ℝ × ℝ) :=
  (List.zip c1 c2).filterMap fun p =>
    match p with
    | (some a, some b) => some (a, b)
    | _ => none

/-- Rows where all three columns are non-missing:
`df[[x, y, covar]].dropna()` of the source (line 23). -/
def dropna3 (cx cy cz : List (Option ℝ)) : List (ℝ × ℝ × ℝ) :=
  (List.zip cx (List.zip cy cz)).filterMap fun p =>
    match p with
    | (some a, (some b, some c)) => some (a, b, c)
    | _ => none

/-- Exceptions that can be raised inside the `try` block of
`calculate_partial_correlation`: a `KeyError` from `df[[x, y, covar]]` when a
column name is absent, and the `ValueError`/`AttributeError` pandas raises at
the `.corr` calls (lines 26-28) when the three selected labels are not
pairwise distinct (a duplicated label makes `temp_df[x]` a DataFrame). -/
inductive PyExn
  | keyError
  | valueError

/-- Body of `calculate_partial_correlation` (the `try` block, lines 22-34):
select the three columns (KeyError when one is missing), drop incomplete rows,
return `(nan, nan)` when fewer than 3 rows remain, compute the three Pearson
correlations (raising when the labels are duplicated), return `(nan, nan)`
when the denominator `sqrt((1-r_xz²)(1-r_yz²))` is zero, and otherwise return
the partial correlation together with the raw correlation `r_xy`.  When one of
the zero-order correlations is NaN the float arithmetic of the source
propagates NaN: the denominator is NaN, the `denominator == 0` test is false,
and the division yields NaN, so the result is `(nan, r_xy)`. -/
noncomputable def pcorrBody (df : Dataset) (x y covar : String) :
    Except PyExn (Option ℝ × Option ℝ) :=
  match findCol df x, findCol df y, findCol df covar with
  | some cx, some cy, some cz =>
    let rows := dropna3 cx cy cz
    if rows.length < 3 then .ok (none, none)
    else if x = y ∨ covar = x ∨ covar = y then .error .valueError
    else
      match pearson (rows.map fun t => (t.1, t.2.1)),
            pearson (rows.map fun t => (t.1, t.2.2)),
            pearson (rows.map fun t => (t.2.1, t.2.2)) with
      | some rxy, some rxz, some ryz =>
        if Real.sqrt ((1 - rxz ^ 2) * (1 - ryz ^ 2)) = 0 then .ok (none, none)
        else .ok (some ((rxy - rxz * ryz) / Real.sqrt ((1 - rxz ^ 2) * (1 - ryz ^ 2))),
                  some rxy)
      | some rxy, _, _ => .ok (none, some rxy)
      | none, _, _ => .ok (none, none)
  | _, _, _ => .error .keyError

/-- `calculate_partial_correlation` (lines 18-36): the `try` body wrapped in
the catch-all `except` that turns any exception into `(nan, nan)`. -/
noncomputable def calculate_pcorr (df : Dataset) (x y covar : String) :
    Option ℝ × Option ℝ :=
  match pcorrBody df x y covar with
  | .ok r => r
  | .error _ => (none, none)

/-- The correlation matrix `df_numeric.corr()` of line 98: pandas
`DataFrame.corr`, Pearson method, pairwise deletion of missing rows for each
pair of columns, NaN cells when a filtered column is constant. -/
noncomputable def dfCorr (df : Dataset) : List (List (Option ℝ)) :=
  df.map fun c1 => df.map fun c2 => pearson (pairedRowsV c1.2 c2.2)

/-- Matrix cell access: `none` out of range. -/
def mGet (m : List (List α)) (i j : ℕ) : Option α :=
  m[i]?.bind fun r => r[j]?

/-- Modelled from the spec: the cell of `computeCorrelationMatrix` for one
ordered pair of columns.  The variant of the dashboard that computes a
significance matrix next to the correlation matrix is not under `src/` (the
file there only runs `df_numeric.corr()` at line 98); per the spec, each cell
performs pairwise deletion, yields `(NaN, NaN)` when fewer than 3 valid paired
observations remain, and otherwise pairs the Pearson coefficient with the
two-tailed significance value of the t-distribution test with `n - 2` degrees
of freedom.  The t-test itself is the external statistical routine (scipy),
abstracted as the parameter `tT` applied to the coefficient and `n - 2`. -/
noncomputable def corrCell (tT : ℝ → ℕ → ℝ) (c1 c2 : List (Option ℝ)) :
    Option ℝ × Option ℝ :=
  let pts := pairedRowsV c1 c2
  if pts.length < 3 then (none, none)
  else
    match pearson pts with
    | none => (none, none)
    | some r => (some r, some (tT r (pts.length - 2)))

/-- Modelled from the spec: `computeCorrelationMatrix(dataset, columns)`,
returning the correlation matrix together with the parallel matrix of
p-values (see `corrCell`). -/
noncomputable def computeCorrelationMatrix (tT : ℝ → ℕ → ℝ) (df : Dataset)
    (cols : List String) : List (List (Option ℝ)) × List (List (Option ℝ)) :=
  (cols.map fun c1 => cols.map fun c2 =>
      (corrCell tT (colVals df c1) (colVals df c2)).1,
   cols.map fun c1 => cols.map fun c2 =>
      (corrCell tT (colVals df c1) (colVals df c2)).2)

/-- A row of optional values collapsed to `some` list exactly when no entry is
missing (the rows kept by `dropna`). -/
def allSome : List (Option ℝ) → Option (List ℝ)
  | [] => some []
  | none :: _ => none
  | some v :: rest => (allSome rest).map (v :: ·)

/-- Complete-case rows of a list of aligned columns: for each row index below
`n`, keep the row exactly when every column has a value there. -/
def completeRows (cols : List (List (Option ℝ))) (n : ℕ) : List (List ℝ) :=
  (List.range n).filterMap fun r =>
    allSome (cols.map fun c => (c.get? r).getD none)

/-- Look up several columns; `none` when any is absent. -/
def findCols (df : Dataset) : List String → Option (List (List (Option ℝ)))
  | [] => some []
  | c :: cs =>
    match findCol df c, findCols df cs with
    | some v, some vs => some (v :: vs)
    | _, _ => none

/-- Errors of the spec's regression operation. -/
inductive RegressionError
  | invalidColumn
  | insufficientData

/-- Modelled from the spec: `fitRegression(dataset, target, predictors)`.
The multi-predictor regression variant of the dashboard is not under `src/`
(the file there fits a single predictor guarded only by `len(plot_df) > 0`).
Per the spec: the predictor list must be non-empty, all names distinct and
present (`InvalidColumnError` otherwise); rows with any missing value among
target or predictors are dropped; if fewer rows remain than
`predictors + 2`, the operation fails with `InsufficientDataError`; otherwise
the ordinary-least-squares solve — the external numerical routine
(statsmodels), abstracted as the parameter `ols` — runs on the kept rows. -/
def fitRegression {α : Type} (ols : List (List ℝ) → α) (df : Dataset)
    (target : String) (preds : List String) : Except RegressionError α :=
  if preds = [] then .error .invalidColumn
  else if ¬ (target :: preds).Nodup then .error .invalidColumn
  else
    match findCol df target, findCols df preds with
    | some tcol, some pcols =>
      let rows := completeRows (tcol :: pcols) tcol.length
      if rows.length < preds.length + 2 then .error .insufficientData
      else .ok (ols rows)
    | _, _ => .error .invalidColumn

/-- Slope of the single-predictor OLS fit with intercept of lines 160-163:
`sm.OLS(y, add_constant(x)).fit().params.iloc[1]`, which for a full-rank
design (`sqDev xs ≠ 0`) is the closed-form least-squares solution
`Σ(x-x̄)(y-ȳ) / Σ(x-x̄)²`. -/
noncomputable def olsSlope (pts : List (ℝ × ℝ)) : ℝ :=
  crossDev (pts.map Prod.fst) (pts.map Prod.snd) / sqDev (pts.map Prod.fst)

/-- Intercept of the same fit (line 164): `ȳ - slope · x̄`. -/
noncomputable def olsIntercept (pts : List (ℝ × ℝ)) : ℝ :=
  mean (pts.map Prod.snd) - olsSlope pts * mean (pts.map Prod.fst)

/-- `model.rsquared` of line 165: `1 - SSR / SST` with the centered total sum
of squares, the definition statsmodels uses when the model has a constant. -/
noncomputable def olsR2 (pts : List (ℝ × ℝ)) : ℝ :=
  1 - (pts.map fun p => (p.2 - (olsSlope pts * p.1 + olsIntercept pts)) ^ 2).sum
    / (pts.map fun p => (p.2 - mean (pts.map Prod.snd)) ^ 2).sum

/-- The prediction simulator of line 231: `predicted_y = slope * user_x +
intercept`, pure arithmetic on the already-fitted parameters. -/
def predictY (slope intercept x : ℝ) : ℝ := slope * x + intercept

/-- `plot_df = df.dropna(subset=[x_col, y_col])` of line 157, as the list of
complete (x, y) pairs handed to the OLS fit. -/
def regressionPoints (df : Dataset) (xc yc : String) : List (ℝ × ℝ) :=
  pairedRowsV (colVals df xc) (colVals df yc)

/-! ### Concrete fixture datasets used by the witnesses -/

/-- Three complete columns with y = 2x and z orthogonal to both. -/
def df1 : Dataset :=
  [("x", [some 1, some 2, some 3]),
   ("y", [some 2, some 4, some 6]),
   ("z", [some 1, some 2, some 1])]

/-- Two short columns (2 rows). -/
def df2c : Dataset := [("a", [some 1, some 2]), ("b", [some 1, some 2])]

/-- Two complete columns; the name used in the call is absent. -/
def df3 : Dataset :=
  [("a", [some 1, some 2, some 3]), ("b", [some 2, some 1, some 3])]

/-- Columns with z = 2x, so r_xz = 1 and the denominator is zero. -/
def df4 : Dataset :=
  [("x", [some 1, some 2, some 3]),
   ("y", [some 1, some 3, some 2]),
   ("z", [some 2, some 4, some 6])]

/-- Columns where joint deletion leaves only one complete row. -/
def df5 : Dataset :=
  [("a", [some 1, some 2]), ("b", [some 1, none]), ("c", [some 2, some 3])]

/-- Two complete non-constant columns. -/
def df6 : Dataset :=
  [("a", [some 1, some 2, some 3]), ("b", [some 3, some 1, some 2])]

/-- A constant column next to a non-constant one. -/
def df7 : Dataset :=
  [("k", [some 5, some 5, some 5]), ("m", [some 1, some 2, some 3])]

/-- A target with a missing entry and two full predictors: two complete rows. -/
def df8 : Dataset :=
  [("t", [some 1, some 2, none]),
   ("p", [some 1, some 2, some 3]),
   ("q", [some 2, some 1, some 4])]

/-- The spec's regression fixture: X = [1..5], Y = 2·X. -/
def df9 : Dataset :=
  [("X", [some 1, some 2, some 3, some 4, some 5]),
   ("Y", [some 2, some 4, some 6, some 8, some 10])]

/-- Three aligned columns used by the totality witness; the call uses a
missing name. -/
def df10 : Dataset :=
  [("a", [some 1, some 2, some 4]),
   ("b", [some 2, some 3, some 5]),
   ("c", [some 3, some 4, some 7])]

/-! ### Helper lemmas -/

lemma sqDev_nonneg (l : List ℝ) : 0 ≤ sqDev l := by
  refine List.sum_nonneg ?_
  intro a ha
  rcases List.mem_map.1 ha with ⟨v, _, rfl⟩
  exact mul_self_nonneg _

lemma mean_const (l : List ℝ) (v : ℝ) (hne : l ≠ []) (h : ∀ a ∈ l, a = v) :
    mean l = v := by
  have hlpos : 0 < l.length := List.length_pos.2 hne
  have hlen : (l.length : ℝ) ≠ 0 := Nat.cast_ne_zero.2 hlpos.ne'
  rw [mean, List.sum_eq_card_nsmul l v h, nsmul_eq_mul, mul_comm,
    mul_div_cancel_right₀ _ hlen]

lemma sqDev_const (l : List ℝ) (v : ℝ) (h : ∀ a ∈ l, a = v) : sqDev l = 0 := by
  rcases eq_or_ne l [] with rfl | hne
  · simp [sqDev]
  · have hm := mean_const l v hne h
    refine List.sum_eq_zero ?_
    intro a ha
    rcases List.mem_map.1 ha with ⟨w, hw, rfl⟩
    rw [h w hw, hm, sub_self, mul_zero]

lemma zipWith_same {α β : Type} (f : α → α → β) (l : List α) :
    List.zipWith f l l = l.map fun a => f a a := by
  induction l with
  | nil => rfl
  | cons a t ih => simp [ih]

lemma zipWith_sum_comm (mx my : ℝ) : ∀ (xs ys : List ℝ),
    (List.zipWith (fun a b => (a - mx) * (b - my)) xs ys).sum =
    (List.zipWith (fun b a => (b - my) * (a - mx)) ys xs).sum
  | [], ys => by cases ys <;> simp
  | x :: xs, [] => by simp
  | x :: xs, y :: ys => by
    simp only [List.zipWith_cons_cons, List.sum_cons,
      zipWith_sum_comm mx my xs ys]
    ring_nf

lemma crossDev_comm (xs ys : List ℝ) : crossDev ys xs = crossDev xs ys := by
  unfold crossDev
  exact (zipWith_sum_comm (mean xs) (mean ys) xs ys).symm

lemma crossDev_self (l : List ℝ) : crossDev l l = sqDev l := by
  unfold crossDev sqDev
  rw [zipWith_same]

lemma pearson_swap (pts : List (ℝ × ℝ)) :
    pearson (pts.map Prod.swap) = pearson pts := by
  have hfst : (pts.map Prod.swap).map Prod.fst = pts.map Prod.snd := by
    simp [List.map_map]
  have hsnd : (pts.map Prod.swap).map Prod.snd = pts.map Prod.fst := by
    simp [List.map_map]
  simp only [pearson, hfst, hsnd, crossDev_comm, or_comm, mul_comm]

lemma pairedRowsV_swap (c1 c2 : List (Option ℝ)) :
    pairedRowsV c2 c1 = (pairedRowsV c1 c2).map Prod.swap := by
  induction c1 generalizing c2 with
  | nil => cases c2 <;> simp [pairedRowsV]
  | cons o1 t1 ih =>
    cases c2 with
    | nil => simp [pairedRowsV]
    | cons o2 t2 =>
      have ih2 := ih t2
      cases o1 <;> cases o2 <;>
        simpa [pairedRowsV, List.zip_cons_cons, List.filterMap_cons] using ih2

lemma pairedRowsV_self (c : List (Option ℝ)) :
    pairedRowsV c c = (c.filterMap id).map fun v => (v, v) := by
  induction c with
  | nil => rfl
  | cons o t ih =>
    cases o <;> simp [pairedRowsV, List.zip_cons_cons, List.filterMap_cons] <;>
      simpa [pairedRowsV] using ih

lemma mem_pairedRowsV {c1 c2 : List (Option ℝ)} {p : ℝ × ℝ}
    (h : p ∈ pairedRowsV c1 c2) : some p.1 ∈ c1 ∧ some p.2 ∈ c2 := by
  rcases List.mem_filterMap.1 h with ⟨q, hq, hmatch⟩
  rcases q with ⟨o1, o2⟩
  have hz := List.of_mem_zip hq
  rcases o1 with _ | a
  · simp at hmatch
  · rcases o2 with _ | b
    · simp at hmatch
    · simp at hmatch
      subst hmatch
      exact hz

lemma pearson_eval (pts : List (ℝ × ℝ)) (sx sy cxy : ℝ)
    (hsx : sqDev (pts.map Prod.fst) = sx) (hsy : sqDev (pts.map Prod.snd) = sy)
    (hc : crossDev (pts.map Prod.fst) (pts.map Prod.snd) = cxy)
    (hx0 : sx ≠ 0) (hy0 : sy ≠ 0) :
    pearson pts = some (cxy / Real.sqrt (sx * sy)) := by
  simp only [pearson, hsx, hsy, hc]
  rw [if_neg (by push_neg; exact ⟨hx0, hy0⟩)]

lemma pearson_none_left (pts : List (ℝ × ℝ))
    (h : sqDev (pts.map Prod.fst) = 0) : pearson pts = none := by
  simp [pearson, h]

lemma pearson_none_right (pts : List (ℝ × ℝ))
    (h : sqDev (pts.map Prod.snd) = 0) : pearson pts = none := by
  simp [pearson, h]

lemma pearson_diag (vals : List ℝ) (h : sqDev vals ≠ 0) :
    pearson (vals.map fun v => (v, v)) = some 1 := by
  have hfst : (vals.map fun v => (v, v)).map Prod.fst = vals := by
    simp [List.map_map, Function.comp_def]
  have hsnd : (vals.map fun v => (v, v)).map Prod.snd = vals := by
    simp [List.map_map, Function.comp_def]
  have hpos : 0 < sqDev vals := lt_of_le_of_ne (sqDev_nonneg vals) (Ne.symm h)
  rw [pearson_eval _ (sqDev vals) (sqDev vals) (sqDev vals)
    (by rw [hfst]) (by rw [hsnd]) (by rw [hfst, hsnd, crossDev_self]) h h]
  rw [Real.sqrt_mul_self (le_of_lt hpos), div_self h]

lemma mGet_map_map {α β : Type} (f : α → α → β) (l : List α) (i j : ℕ) :
    mGet (l.map fun a => l.map fun b => f a b) i j =
      l[i]?.bind fun a => l[j]?.map fun b => f a b := by
  cases hi : l[i]? with
  | none => simp [mGet, List.getElem?_map, hi]
  | some a => simp [mGet, List.getElem?_map, hi]

lemma calc_pcorr_eq_ok {df : Dataset} {x y covar : String} {r : Option ℝ × Option ℝ}
    (h : pcorrBody df x y covar = .ok r) : calculate_pcorr df x y covar = r := by
  simp [calculate_pcorr, h]

lemma calc_pcorr_eq_of_error {df : Dataset} {x y covar : String} {e : PyExn}
    (h : pcorrBody df x y covar = .error e) :
    calculate_pcorr df x y covar = (none, none) := by
  simp [calculate_pcorr, h]

lemma pcorrBody_missing (df : Dataset) (x y covar : String)
    (h : findCol df x = none ∨ findCol df y = none ∨ findCol df covar = none) :
    pcorrBody df x y covar = .error .keyError := by
  cases hx : findCol df x <;> cases hy : findCol df y <;>
    cases hz : findCol df covar <;> simp_all [pcorrBody]

lemma pcorrBody_short (df : Dataset) (x y covar : String)
    (cx cy cz : List (Option ℝ)) (hx : findCol df x = some cx)
    (hy : findCol df y = some cy) (hz : findCol df covar = some cz)
    (hlen : (dropna3 cx cy cz).length < 3) :
    pcorrBody df x y covar = .ok (none, none) := by
  simp [pcorrBody, hx, hy, hz, hlen]

lemma pcorrBody_dup (df : Dataset) (x y covar : String)
    (cx cy cz : List (Option ℝ)) (hx : findCol df x = some cx)
    (hy : findCol df y = some cy) (hz : findCol df covar = some cz)
    (hlen : ¬ (dropna3 cx cy cz).length < 3)
    (hdup : x = y ∨ covar = x ∨ covar = y) :
    pcorrBody df x y covar = .error .valueError := by
  simp only [pcorrBody, hx, hy, hz]
  rw [if_neg hlen, if_pos hdup]

lemma pcorrBody_main (df : Dataset) (x y covar : String)
    (cx cy cz : List (Option ℝ)) (rxy rxz ryz : ℝ)
    (hx : findCol df x = some cx) (hy : findCol df y = some cy)
    (hz : findCol df covar = some cz)
    (hd1 : x ≠ y) (hd2 : covar ≠ x) (hd3 : covar ≠ y)
    (hlen : ¬ (dropna3 cx cy cz).length < 3)
    (h1 : pearson ((dropna3 cx cy cz).map fun t => (t.1, t.2.1)) = some rxy)
    (h2 : pearson ((dropna3 cx cy cz).map fun t => (t.1, t.2.2)) = some rxz)
    (h3 : pearson ((dropna3 cx cy cz).map fun t => (t.2.1, t.2.2)) = some ryz) :
    pcorrBody df x y covar =
      (if Real.sqrt ((1 - rxz ^ 2) * (1 - ryz ^ 2)) = 0 then .ok (none, none)
       else .ok (some ((rxy - rxz * ryz) /
                  Real.sqrt ((1 - rxz ^ 2) * (1 - ryz ^ 2))), some rxy)) := by
  simp only [pcorrBody, hx, hy, hz]
  rw [if_neg hlen, if_neg (by push_neg; exact ⟨hd1, hd2, hd3⟩)]
  rw [h1, h2, h3]

lemma sqrt_sixteen : Real.sqrt 16 = 4 := by
  rw [show (16 : ℝ) = 4 ^ 2 by norm_num]
  exact Real.sqrt_sq (by norm_num)

lemma pearson_three (x1 x2 x3 y1 y2 y3 sx sy cxy r : ℝ)
    (hsx : sqDev [x1, x2, x3] = sx) (hsy : sqDev [y1, y2, y3] = sy)
    (hc : crossDev [x1, x2, x3] [y1, y2, y3] = cxy)
    (hx0 : sx ≠ 0) (hy0 : sy ≠ 0) (hr : cxy / Real.sqrt (sx * sy) = r) :
    pearson [(x1, y1), (x2, y2), (x3, y3)] = some r := by
  rw [← hr]
  exact pearson_eval _ sx sy cxy hsx hsy hc hx0 hy0

/-! ### Claim theorems -/

/-- Claim C5: `calculate_partial_correlation` first drops every row in which
any of x, y, z is missing (the joint deletion `dropna3`), and when fewer than
3 rows remain after that deletion it returns the undefined pair `(NaN, NaN)`
rather than a number or an exception. -/
theorem calc_pcorr_few_rows (df : Dataset) (x y covar : String)
    (cx cy cz : List (Option ℝ))
    (hx : findCol df x = some cx) (hy : findCol df y = some cy)
    (hz : findCol df covar = some cz)
    (hlen : (dropna3 cx cy cz).length < 3) :
    calculate_pcorr df x y covar = (none, none) :=
  calc_pcorr_eq_ok (pcorrBody_short df x y covar cx cy cz hx hy hz hlen)

/-- Witness for C5: on `df5` the joint deletion keeps a single row, and the
call returns `(NaN, NaN)`. -/
theorem calc_pcorr_few_rows_witness :
    calculate_pcorr df5 "a" "b" "c" = (none, none) :=
  calc_pcorr_few_rows df5 "a" "b" "c" _ _ _ rfl rfl rfl (by decide)

/-- Claim C1: with three distinct present columns, at least 3 jointly complete
rows and a nonzero denominator, `calculate_partial_correlation` returns the
pair `(partial, raw)` with `raw = r_xy` the Pearson correlation of x and y on
the filtered rows and
`partial = (r_xy - r_xz·r_yz) / sqrt((1 - r_xz²)·(1 - r_yz²))`. -/
theorem calc_pcorr_formula (df : Dataset) (x y covar : String)
    (cx cy cz : List (Option ℝ)) (rxy rxz ryz : ℝ)
    (hx : findCol df x = some cx) (hy : findCol df y = some cy)
    (hz : findCol df covar = some cz)
    (hd1 : x ≠ y) (hd2 : covar ≠ x) (hd3 : covar ≠ y)
    (hlen : ¬ (dropna3 cx cy cz).length < 3)
    (h1 : pearson ((dropna3 cx cy cz).map fun t => (t.1, t.2.1)) = some rxy)
    (h2 : pearson ((dropna3 cx cy cz).map fun t => (t.1, t.2.2)) = some rxz)
    (h3 : pearson ((dropna3 cx cy cz).map fun t => (t.2.1, t.2.2)) = some ryz)
    (hden : Real.sqrt ((1 - rxz ^ 2) * (1 - ryz ^ 2)) ≠ 0) :
    calculate_pcorr df x y covar =
      (some ((rxy - rxz * ryz) / Real.sqrt ((1 - rxz ^ 2) * (1 - ryz ^ 2))),
       some rxy) := by
  have hb := pcorrBody_main df x y covar cx cy cz rxy rxz ryz hx hy hz
    hd1 hd2 hd3 hlen h1 h2 h3
  rw [if_neg hden] at hb
  exact calc_pcorr_eq_ok hb

/-- Witness for C1: on `df1` (y = 2x, z orthogonal to x and y) the raw and
partial correlations both evaluate to 1. -/
theorem calc_pcorr_formula_witness :
    calculate_pcorr df1 "x" "y" "z" = (some 1, some 1) := by
  have h1 : pearson [((1 : ℝ), (2 : ℝ)), (2, 4), (3, 6)] = some 1 := by
    refine pearson_three 1 2 3 2 4 6 2 8 4 1 ?_ ?_ ?_ (by norm_num) (by norm_num) ?_
    · simp [sqDev, mean]; norm_num
    · simp [sqDev, mean]; norm_num
    · simp [crossDev, mean]; norm_num
    · rw [show (2 : ℝ) * 8 = 16 by norm_num, sqrt_sixteen]; norm_num
  have h2 : pearson [((1 : ℝ), (1 : ℝ)), (2, 2), (3, 1)] = some 0 := by
    refine pearson_three 1 2 3 1 2 1 2 (2/3) 0 0 ?_ ?_ ?_ (by norm_num) (by norm_num) ?_
    · simp [sqDev, mean]; norm_num
    · simp [sqDev, mean]; norm_num
    · simp [crossDev, mean]; norm_num
    · rw [zero_div]
  have h3 : pearson [((2 : ℝ), (1 : ℝ)), (4, 2), (6, 1)] = some 0 := by
    refine pearson_three 2 4 6 1 2 1 8 (2/3) 0 0 ?_ ?_ ?_ (by norm_num) (by norm_num) ?_
    · simp [sqDev, mean]; norm_num
    · simp [sqDev, mean]; norm_num
    · simp [crossDev, mean]; norm_num
    · rw [zero_div]
  have hden : Real.sqrt ((1 - (0 : ℝ) ^ 2) * (1 - (0 : ℝ) ^ 2)) ≠ 0 := by
    rw [show ((1 : ℝ) - (0 : ℝ) ^ 2) * (1 - (0 : ℝ) ^ 2) = 1 by norm_num,
      Real.sqrt_one]
    norm_num
  have hmain := calc_pcorr_formula df1 "x" "y" "z" _ _ _ 1 0 0 rfl rfl rfl
    (by decide) (by decide) (by decide) (by decide) h1 h2 h3 hden
  rw [hmain]
  norm_num [Real.sqrt_one]

/-- Claim C4: with three distinct present columns and at least 3 jointly
complete rows, a zero denominator `sqrt((1 - r_xz²)(1 - r_yz²)) = 0` (as when
r_xz = ±1) makes `calculate_partial_correlation` return an undefined
(not-a-number) partial correlation instead of raising a division error. -/
theorem calc_pcorr_zero_denom (df : Dataset) (x y covar : String)
    (cx cy cz : List (Option ℝ)) (rxy rxz ryz : ℝ)
    (hx : findCol df x = some cx) (hy : findCol df y = some cy)
    (hz : findCol df covar = some cz)
    (hd1 : x ≠ y) (hd2 : covar ≠ x) (hd3 : covar ≠ y)
    (hlen : ¬ (dropna3 cx cy cz).length < 3)
    (h1 : pearson ((dropna3 cx cy cz).map fun t => (t.1, t.2.1)) = some rxy)
    (h2 : pearson ((dropna3 cx cy cz).map fun t => (t.1, t.2.2)) = some rxz)
    (h3 : pearson ((dropna3 cx cy cz).map fun t => (t.2.1, t.2.2)) = some ryz)
    (hden : Real.sqrt ((1 - rxz ^ 2) * (1 - ryz ^ 2)) = 0) :
    calculate_pcorr df x y covar = (none, none) := by
  have hb := pcorrBody_main df x y covar cx cy cz rxy rxz ryz hx hy hz
    hd1 hd2 hd3 hlen h1 h2 h3
  rw [if_pos hden] at hb
  exact calc_pcorr_eq_ok hb

/-- Witness for C4: on `df4` (z = 2x, so r_xz = 1) the call returns
`(NaN, NaN)`. -/
theorem calc_pcorr_zero_denom_witness :
    calculate_pcorr df4 "x" "y" "z" = (none, none) := by
  have h1 : pearson [((1 : ℝ), (1 : ℝ)), (2, 3), (3, 2)] = some (1/2) := by
    refine pearson_three 1 2 3 1 3 2 2 2 1 (1/2) ?_ ?_ ?_ (by norm_num)
      (by norm_num) ?_
    · simp [sqDev, mean]; norm_num
    · simp [sqDev, mean]; norm_num
    · simp [crossDev, mean]; norm_num
    · rw [show (2 : ℝ) * 2 = 2 ^ 2 by norm_num, Real.sqrt_sq (by norm_num)]
  have h2 : pearson [((1 : ℝ), (2 : ℝ)), (2, 4), (3, 6)] = some 1 := by
    refine pearson_three 1 2 3 2 4 6 2 8 4 1 ?_ ?_ ?_ (by norm_num) (by norm_num) ?_
    · simp [sqDev, mean]; norm_num
    · simp [sqDev, mean]; norm_num
    · simp [crossDev, mean]; norm_num
    · rw [show (2 : ℝ) * 8 = 16 by norm_num, sqrt_sixteen]; norm_num
  have h3 : pearson [((1 : ℝ), (2 : ℝ)), (3, 4), (2, 6)] = some (1/2) := by
    refine pearson_three 1 3 2 2 4 6 2 8 2 (1/2) ?_ ?_ ?_ (by norm_num)
      (by norm_num) ?_
    · simp [sqDev, mean]; norm_num
    · simp [sqDev, mean]; norm_num
    · simp [crossDev, mean]; norm_num
    · rw [show (2 : ℝ) * 8 = 16 by norm_num, sqrt_sixteen]; norm_num
  have hden : Real.sqrt ((1 - (1 : ℝ) ^ 2) * (1 - ((1 : ℝ)/2) ^ 2)) = 0 := by
    rw [show ((1 : ℝ) - (1 : ℝ) ^ 2) * (1 - ((1 : ℝ)/2) ^ 2) = 0 by norm_num,
      Real.sqrt_zero]
  exact calc_pcorr_zero_denom df4 "x" "y" "z" _ _ _ (1/2) 1 (1/2) rfl rfl rfl
    (by decide) (by decide) (by decide) (by decide) h1 h2 h3 hden

/-- Counterexample to claim C3: called with the column name "c" absent from
`df3`, `calculate_partial_correlation` does NOT surface any error to the
caller.  The `try` body raises (a KeyError), the catch-all `except` swallows
it, and the caller receives the ordinary value `(NaN, NaN)` — the silent
substitution the claim rules out. -/
theorem calc_pcorr_missing_column_silent :
    pcorrBody df3 "c" "a" "b" = .error .keyError ∧
    calculate_pcorr df3 "c" "a" "b" = (none, none) := by
  constructor <;> rfl

/-- Amended claim C3: whenever any of the three column names is missing from
the dataset, or x = y, `calculate_partial_correlation` returns `(NaN, NaN)` to
the caller (the internal exception is caught; nothing is raised). -/
theorem calc_pcorr_invalid_inputs_nan (df : Dataset) (x y covar : String)
    (h : findCol df x = none ∨ findCol df y = none ∨ findCol df covar = none ∨
      x = y) :
    calculate_pcorr df x y covar = (none, none) := by
  rcases h with h | h | h | h
  · exact calc_pcorr_eq_of_error (pcorrBody_missing df x y covar (Or.inl h))
  · exact calc_pcorr_eq_of_error (pcorrBody_missing df x y covar (Or.inr (Or.inl h)))
  · exact calc_pcorr_eq_of_error
      (pcorrBody_missing df x y covar (Or.inr (Or.inr h)))
  · subst h
    cases hx : findCol df x with
    | none => exact calc_pcorr_eq_of_error (pcorrBody_missing df x x covar (Or.inl hx))
    | some cx =>
      cases hz : findCol df covar with
      | none =>
        exact calc_pcorr_eq_of_error
          (pcorrBody_missing df x x covar (Or.inr (Or.inr hz)))
      | some cz =>
        by_cases hlen : (dropna3 cx cx cz).length < 3
        · exact calc_pcorr_eq_ok
            (pcorrBody_short df x x covar cx cx cz hx hx hz hlen)
        · exact calc_pcorr_eq_of_error
            (pcorrBody_dup df x x covar cx cx cz hx hx hz hlen (Or.inl rfl))

/-- Witness for the amended C3: calling with x = y = "a" on `df3` (three
complete rows, so neither the missing-column nor the short-data path is taken)
still yields `(NaN, NaN)`. -/
theorem calc_pcorr_invalid_inputs_nan_witness :
    calculate_pcorr df3 "a" "a" "b" = (none, none) :=
  calc_pcorr_invalid_inputs_nan df3 "a" "a" "b" (Or.inr (Or.inr (Or.inr rfl)))

/-- Claim C10: `calculate_partial_correlation` is total — it always returns a
pair of optional floats — and on each of its failure paths (a missing column
name raising internally, fewer than 3 jointly complete rows, or a zero
denominator) both components of the returned pair are NaN, so the raw
correlation r_xy is reported as undefined on those paths too. -/
theorem calc_pcorr_total_nan (df : Dataset) (x y covar : String) :
    ((findCol df x = none ∨ findCol df y = none ∨ findCol df covar = none) →
      calculate_pcorr df x y covar = (none, none)) ∧
    (∀ cx cy cz, findCol df x = some cx → findCol df y = some cy →
      findCol df covar = some cz → (dropna3 cx cy cz).length < 3 →
      calculate_pcorr df x y covar = (none, none)) ∧
    (∀ cx cy cz rxy rxz ryz, findCol df x = some cx → findCol df y = some cy →
      findCol df covar = some cz →
      pearson ((dropna3 cx cy cz).map fun t => (t.1, t.2.1)) = some rxy →
      pearson ((dropna3 cx cy cz).map fun t => (t.1, t.2.2)) = some rxz →
      pearson ((dropna3 cx cy cz).map fun t => (t.2.1, t.2.2)) = some ryz →
      Real.sqrt ((1 - rxz ^ 2) * (1 - ryz ^ 2)) = 0 →
      calculate_pcorr df x y covar = (none, none)) := by
  refine ⟨fun h => calc_pcorr_eq_of_error (pcorrBody_missing df x y covar h),
    fun cx cy cz hx hy hz hlen =>
      calc_pcorr_eq_ok (pcorrBody_short df x y covar cx cy cz hx hy hz hlen),
    fun cx cy cz rxy rxz ryz hx hy hz h1 h2 h3 hden => ?_⟩
  by_cases hlen : (dropna3 cx cy cz).length < 3
  · exact calc_pcorr_eq_ok (pcorrBody_short df x y covar cx cy cz hx hy hz hlen)
  · by_cases hdup : x = y ∨ covar = x ∨ covar = y
    · exact calc_pcorr_eq_of_error
        (pcorrBody_dup df x y covar cx cy cz hx hy hz hlen hdup)
    · push_neg at hdup
      have hb := pcorrBody_main df x y covar cx cy cz rxy rxz ryz hx hy hz
        hdup.1 hdup.2.1 hdup.2.2 hlen h1 h2 h3
      rw [if_pos hden] at hb
      exact calc_pcorr_eq_ok hb

/-- Witness for C10 (missing-column failure path): with the name "zz" absent
from `df10`, the call returns the plain value `(NaN, NaN)`. -/
theorem calc_pcorr_total_nan_witness :
    calculate_pcorr df10 "zz" "a" "b" = (none, none) :=
  (calc_pcorr_total_nan df10 "zz" "a" "b").1 (Or.inl rfl)

/-- Claim C6: the correlation matrix `df_numeric.corr()` is symmetric, and
every diagonal cell whose column has nonzero variance (over its non-missing
values) equals 1.0. -/
theorem dfCorr_symm_diag_one (df : Dataset) :
    (∀ i j : ℕ, mGet (dfCorr df) i j = mGet (dfCorr df) j i) ∧
    (∀ (i : ℕ) (col : String × List (Option ℝ)), df[i]? = some col →
      sqDev (col.2.filterMap id) ≠ 0 →
      mGet (dfCorr df) i i = some (some 1)) := by
  constructor
  · intro i j
    rw [dfCorr, mGet_map_map, mGet_map_map]
    cases hi : df[i]? <;> cases hj : df[j]? <;> simp
    rw [pairedRowsV_swap, pearson_swap]
  · intro i col hi hvar
    rw [dfCorr, mGet_map_map, hi]
    simp [pairedRowsV_self, pearson_diag _ hvar]

/-- Witness for C6 on `df6`: the (0,1) and (1,0) cells agree, and the (0,0)
cell (column of variance 2) is exactly 1. -/
theorem dfCorr_symm_diag_one_witness :
    mGet (dfCorr df6) 0 1 = mGet (dfCorr df6) 1 0 ∧
    mGet (dfCorr df6) 0 0 = some (some 1) := by
  refine ⟨(dfCorr_symm_diag_one df6).1 0 1, ?_⟩
  refine (dfCorr_symm_diag_one df6).2 0 ("a", [some 1, some 2, some 3]) rfl ?_
  have hv : (([some (1 : ℝ), some 2, some 3] : List (Option ℝ)).filterMap id) =
      [(1 : ℝ), 2, 3] := rfl
  rw [hv]
  simp [sqDev, mean]
  norm_num

/-- Claim C7: a constant column (all entries equal) makes every matrix cell
pairing it with any column — in either orientation, itself included — an
in-range cell holding NaN: not zero, and no error is raised (the matrix
operation is total). -/
theorem dfCorr_const_col_nan (df : Dataset) (i j : ℕ)
    (ci cj : String × List (Option ℝ)) (v : ℝ)
    (hi : df[i]? = some ci) (hconst : ∀ o ∈ ci.2, o = some v)
    (hj : df[j]? = some cj) :
    mGet (dfCorr df) i j = some none ∧ mGet (dfCorr df) j i = some none := by
  have hall1 : ∀ a ∈ (pairedRowsV ci.2 cj.2).map Prod.fst, a = v := by
    intro a ha
    rcases List.mem_map.1 ha with ⟨p, hp, rfl⟩
    exact Option.some.inj (hconst _ (mem_pairedRowsV hp).1)
  have hall2 : ∀ a ∈ (pairedRowsV cj.2 ci.2).map Prod.snd, a = v := by
    intro a ha
    rcases List.mem_map.1 ha with ⟨p, hp, rfl⟩
    exact Option.some.inj (hconst _ (mem_pairedRowsV hp).2)
  have hpe1 : pearson (pairedRowsV ci.2 cj.2) = none :=
    pearson_none_left _ (sqDev_const _ v hall1)
  have hpe2 : pearson (pairedRowsV cj.2 ci.2) = none :=
    pearson_none_right _ (sqDev_const _ v hall2)
  constructor
  · rw [dfCorr, mGet_map_map, hi, hj]
    simp [hpe1]
  · rw [dfCorr, mGet_map_map, hj, hi]
    simp [hpe2]

/-- Witness for C7 on `df7`: the constant column "k" gives NaN cells against
the non-constant column "m" in both orientations. -/
theorem dfCorr_const_col_nan_witness :
    mGet (dfCorr df7) 0 1 = some none ∧ mGet (dfCorr df7) 1 0 = some none := by
  refine dfCorr_const_col_nan df7 0 1 ("k", [some 5, some 5, some 5])
    ("m", [some 1, some 2, some 3]) 5 rfl ?_ rfl
  intro o ho
  simp only [List.mem_cons, List.not_mem_nil, or_false] at ho
  rcases ho with h | h | h <;> exact h

lemma corrCell_short (tT : ℝ → ℕ → ℝ) (c1 c2 : List (Option ℝ))
    (h : (pairedRowsV c1 c2).length < 3) : corrCell tT c1 c2 = (none, none) := by
  simp [corrCell, h]

lemma corrCell_fst (tT : ℝ → ℕ → ℝ) (c1 c2 : List (Option ℝ))
    (h : ¬ (pairedRowsV c1 c2).length < 3) :
    (corrCell tT c1 c2).1 = pearson (pairedRowsV c1 c2) := by
  simp only [corrCell]
  rw [if_neg h]
  cases hp : pearson (pairedRowsV c1 c2) <;> simp [hp]

lemma corrCell_snd (tT : ℝ → ℕ → ℝ) (c1 c2 : List (Option ℝ)) (r : ℝ)
    (h : ¬ (pairedRowsV c1 c2).length < 3)
    (hr : pearson (pairedRowsV c1 c2) = some r) :
    (corrCell tT c1 c2).2 = some (tT r ((pairedRowsV c1 c2).length - 2)) := by
  simp only [corrCell]
  rw [if_neg h, hr]

/-- Claim C2: `computeCorrelationMatrix` (spec-modelled; the significance
matrix is not computed in `src/`) returns a correlation matrix and a parallel
p-value matrix of the same shape; a pair of columns with fewer than 3 valid
paired observations gets NaN in both cells while the rest of the matrix is
still computed (the shape facts hold and every in-range cell is present, so
the operation does not fail as a whole); any other pair gets its Pearson
coefficient and, when that coefficient is defined, the two-tailed significance
value `tT r (n - 2)` computed from it with `n - 2` degrees of freedom. -/
theorem computeCorrelationMatrix_cells (tT : ℝ → ℕ → ℝ) (df : Dataset)
    (cols : List String) (i j : ℕ) (ci cj : String)
    (hci : cols[i]? = some ci) (hcj : cols[j]? = some cj) :
    ((computeCorrelationMatrix tT df cols).1.length = cols.length ∧
     (computeCorrelationMatrix tT df cols).2.length = cols.length) ∧
    ((pairedRowsV (colVals df ci) (colVals df cj)).length < 3 →
      mGet (computeCorrelationMatrix tT df cols).1 i j = some none ∧
      mGet (computeCorrelationMatrix tT df cols).2 i j = some none) ∧
    (¬ (pairedRowsV (colVals df ci) (colVals df cj)).length < 3 →
      mGet (computeCorrelationMatrix tT df cols).1 i j =
        some (pearson (pairedRowsV (colVals df ci) (colVals df cj))) ∧
      ∀ r, pearson (pairedRowsV (colVals df ci) (colVals df cj)) = some r →
        mGet (computeCorrelationMatrix tT df cols).2 i j =
          some (some (tT r
            ((pairedRowsV (colVals df ci) (colVals df cj)).length - 2)))) := by
  have hm1 : mGet (computeCorrelationMatrix tT df cols).1 i j =
      some ((corrCell tT (colVals df ci) (colVals df cj)).1) := by
    rw [computeCorrelationMatrix, mGet_map_map, hci, hcj]
    rfl
  have hm2 : mGet (computeCorrelationMatrix tT df cols).2 i j =
      some ((corrCell tT (colVals df ci) (colVals df cj)).2) := by
    rw [computeCorrelationMatrix, mGet_map_map, hci, hcj]
    rfl
  refine ⟨⟨by simp [computeCorrelationMatrix], by simp [computeCorrelationMatrix]⟩,
    fun hshort => ?_, fun hlong => ?_⟩
  · rw [hm1, hm2, corrCell_short tT _ _ hshort]
    exact ⟨rfl, rfl⟩
  · refine ⟨by rw [hm1, corrCell_fst tT _ _ hlong], fun r hr => ?_⟩
    rw [hm2, corrCell_snd tT _ _ r hlong hr]

/-- Witness for C2 on `df2c` (two columns, two rows): the (0,1) pair has only
2 valid paired observations, and both matrix cells hold NaN. -/
theorem computeCorrelationMatrix_cells_witness :
    mGet (computeCorrelationMatrix (fun _ _ => (0 : ℝ)) df2c ["a", "b"]).1 0 1 =
      some none ∧
    mGet (computeCorrelationMatrix (fun _ _ => (0 : ℝ)) df2c ["a", "b"]).2 0 1 =
      some none :=
  (computeCorrelationMatrix_cells (fun _ _ => (0 : ℝ)) df2c ["a", "b"] 0 1
    "a" "b" rfl rfl).2.1 (by decide)

/-- Claim C8: `fitRegression` (spec-modelled; the multi-predictor variant is
not under `src/`) drops the rows with a missing value among target or
predictors and fails with `InsufficientDataError` whenever fewer complete rows
remain than the number of predictors plus 2. -/
theorem fitRegression_insufficient {α : Type} (ols : List (List ℝ) → α)
    (df : Dataset) (target : String) (preds : List String)
    (tcol : List (Option ℝ)) (pcols : List (List (Option ℝ)))
    (hne : preds ≠ []) (hnd : (target :: preds).Nodup)
    (ht : findCol df target = some tcol) (hp : findCols df preds = some pcols)
    (hlen : (completeRows (tcol :: pcols) tcol.length).length <
      preds.length + 2) :
    fitRegression ols df target preds = .error .insufficientData := by
  simp only [fitRegression, ht, hp]
  rw [if_neg hne, if_neg (not_not_intro hnd), if_pos hlen]

/-- Witness for C8 on `df8`: 2 predictors and only 2 complete rows fail with
`InsufficientDataError`. -/
theorem fitRegression_insufficient_witness :
    fitRegression (fun rows => rows.length) df8 "t" ["p", "q"] =
      .error .insufficientData :=
  fitRegression_insufficient (fun rows => rows.length) df8 "t" ["p", "q"] _ _
    (by decide) (by decide) rfl rfl (by decide)

/-- Claim C9: the point prediction of the simulator is exactly
`slope · x + intercept` with no retraining, and on the fixture X = [1..5],
Y = [2,4,6,8,10] the single-predictor OLS fit with implicit intercept gives
slope 2, intercept 0 and R² = 1. -/
theorem ols_predict_and_fixture :
    (∀ s a x : ℝ, predictY s a x = s * x + a) ∧
    olsSlope (regressionPoints df9 "X" "Y") = 2 ∧
    olsIntercept (regressionPoints df9 "X" "Y") = 0 ∧
    olsR2 (regressionPoints df9 "X" "Y") = 1 := by
  have hpts : regressionPoints df9 "X" "Y" =
      [((1 : ℝ), (2 : ℝ)), (2, 4), (3, 6), (4, 8), (5, 10)] := rfl
  have hs : olsSlope [((1 : ℝ), (2 : ℝ)), (2, 4), (3, 6), (4, 8), (5, 10)] = 2 := by
    simp [olsSlope, crossDev, sqDev, mean]
    norm_num
  have hi : olsIntercept [((1 : ℝ), (2 : ℝ)), (2, 4), (3, 6), (4, 8), (5, 10)] = 0 := by
    rw [olsIntercept, hs]
    simp [mean]
    norm_num
  have hr : olsR2 [((1 : ℝ), (2 : ℝ)), (2, 4), (3, 6), (4, 8), (5, 10)] = 1 := by
    rw [olsR2, hs, hi]
    simp [mean]
    norm_num
  exact ⟨fun s a x => rfl, by rw [hpts, hs], by rw [hpts, hi], by rw [hpts, hr]⟩

end Soukan
